import Mathlib

/-!
Verification development for the career-services repository
(career recommendation engine, skill-gap analyzer, chatbot intent
classifier, personality analyzer).  Python sources are shallowly
embedded: dictionaries become structures or association lists, floats
become exact rationals, Python `in` on strings becomes an executable
substring check, and Python's stable `list.sort(reverse=True)` becomes
a stable descending insertion sort.
-/

namespace CareerAI

/-- Does `pat` occur at the head of `l`?  Helper for the substring check. -/
def leadsWith : List Char → List Char → Bool
  | [], _ => true
  | _ :: _, [] => false
  | a :: as, b :: bs => a == b && leadsWith as bs

/-- Does `pat` occur as a contiguous run inside `l`?  This is Python's
`pat in s` on strings, on the character lists. -/
def hasSubList (pat : List Char) : List Char → Bool
  | [] => leadsWith pat []
  | c :: rest => leadsWith pat (c :: rest) || hasSubList pat rest

/-- Python's `pat in s` substring test. -/
def strHasSub (pat s : String) : Bool := hasSubList pat.data s.data

/-- Python `str.lower()`, as a character-wise map (the strings the
services handle are ASCII, where the two agree). -/
def strLower (s : String) : String := String.mk (s.data.map Char.toLower)

/-- Python `str.upper()`, as a character-wise map. -/
def strUpper (s : String) : String := String.mk (s.data.map Char.toUpper)

/-- Python `int()` truncation toward zero on a rational. -/
def int_trunc (q : ℚ) : ℤ := if q < 0 then ⌈q⌉ else ⌊q⌋

/-- A user profile as consumed by the services: `skills`,
`experience_level`, `education`, `preferred_industries`, `interests`. -/
structure UserProfile where
  skills : List String
  experience_level : String
  education : String
  preferred_industries : List String
  interests : List String
deriving DecidableEq, Repr

/-- The `base_levels` dictionary lookup with default 3
(`base_levels.get(experience_level, 3)` in `_estimate_user_level`). -/
def base_levels (exp : String) : ℤ :=
  if exp == "entry" then 3
  else if exp == "mid" then 5
  else if exp == "senior" then 7
  else if exp == "executive" then 8
  else 3

/-- `SkillAnalyzer._estimate_user_level(skill, user_profile)`: base level
from the experience tier, `+1` if the lowercased education contains
`"phd"`, else `+0.5` if it contains `"master"`, then `min(int(...), 10)`.
The `skill` argument is accepted but never used, exactly as in the source. -/
def estimate_user_level (skill : String) (p : UserProfile) : ℤ :=
  let base : ℚ := (base_levels p.experience_level : ℚ)
  let adjusted : ℚ :=
    if strHasSub "phd" (strLower p.education) then base + 1
    else if strHasSub "master" (strLower p.education) then base + 1/2
    else base
  min (int_trunc adjusted) 10

/-- The level formula exactly as the specification words it: base tier
level, plus 1 when education contains "phd", plus 0.5 when it contains
"master", truncated to an integer and capped at 10. -/
def spec_estimate_level (p : UserProfile) : ℤ :=
  let base : ℚ := (base_levels p.experience_level : ℚ)
  let adjusted : ℚ :=
    base + (if strHasSub "phd" (strLower p.education) then 1 else 0)
         + (if strHasSub "master" (strLower p.education) then (1 : ℚ)/2 else 0)
  min (int_trunc adjusted) 10

/-- The `user_skills` dict comprehension at the top of
`analyze_skill_gaps`: lowercased skill name paired with the estimated
level, in list order. -/
def user_skill_levels (p : UserProfile) : List (String × ℤ) :=
  p.skills.map (fun s => (strLower s, estimate_user_level s p))

lemma base_levels_bounds (exp : String) :
    3 ≤ base_levels exp ∧ base_levels exp ≤ 8 := by
  unfold base_levels
  split <;> try norm_num
  split <;> try norm_num
  split <;> try norm_num
  split <;> norm_num

lemma int_trunc_intCast_add (b : ℤ) (r : ℚ) (h : 0 ≤ (b : ℚ) + r) :
    int_trunc ((b : ℚ) + r) = b + ⌊r⌋ := by
  unfold int_trunc
  rw [if_neg (by exact not_lt.mpr h), Int.floor_int_add]

lemma int_trunc_intCast (b : ℤ) : int_trunc (b : ℚ) = b := by
  unfold int_trunc
  split <;> simp

section StableSort

variable {α : Type} {κ : Type} [LinearOrder κ]

/-- Insert `x` into a descending list, skipping only strictly greater
keys: called on the sorted tail, `x` (which precedes the tail in the
original list) lands before equal keys, so equal keys keep their
original relative order, as Python's stable sort does. -/
def insDesc (f : α → κ) (x : α) : List α → List α
  | [] => [x]
  | b :: l => if f b > f x then b :: insDesc f x l else x :: b :: l

/-- Stable descending sort by key `f`: Python's
`list.sort(key=f, reverse=True)`. -/
def sortDesc (f : α → κ) : List α → List α
  | [] => []
  | x :: xs => insDesc f x (sortDesc f xs)

lemma mem_insDesc (f : α → κ) (x : α) (l : List α) (y : α) :
    y ∈ insDesc f x l ↔ y = x ∨ y ∈ l := by
  induction l with
  | nil => simp [insDesc]
  | cons b l ih =>
      unfold insDesc
      split
      · simp only [List.mem_cons, ih]
        tauto
      · simp only [List.mem_cons]

lemma mem_sortDesc (f : α → κ) (l : List α) (y : α) :
    y ∈ sortDesc f l ↔ y ∈ l := by
  induction l with
  | nil => simp [sortDesc]
  | cons x xs ih =>
      unfold sortDesc
      rw [mem_insDesc, ih]
      simp [List.mem_cons]

lemma length_insDesc (f : α → κ) (x : α) (l : List α) :
    (insDesc f x l).length = l.length + 1 := by
  induction l with
  | nil => simp [insDesc]
  | cons b l ih =>
      unfold insDesc
      split <;> simp [ih]

lemma length_sortDesc (f : α → κ) (l : List α) :
    (sortDesc f l).length = l.length := by
  induction l with
  | nil => rfl
  | cons x xs ih =>
      unfold sortDesc
      rw [length_insDesc, ih, List.length_cons]

lemma pairwise_insDesc (f : α → κ) (x : α) (l : List α)
    (h : l.Pairwise (fun a b => f b ≤ f a)) :
    (insDesc f x l).Pairwise (fun a b => f b ≤ f a) := by
  induction l with
  | nil => simp [insDesc]
  | cons b l ih =>
      unfold insDesc
      rcases List.pairwise_cons.mp h with ⟨hb, hl⟩
      split
      · rename_i hgt
        refine List.pairwise_cons.mpr ⟨?_, ih hl⟩
        intro y hy
        rcases (mem_insDesc f x l y).mp hy with rfl | hmem
        · exact le_of_lt hgt
        · exact hb y hmem
      · rename_i hle
        refine List.pairwise_cons.mpr ⟨?_, h⟩
        intro y hy
        rcases List.mem_cons.mp hy with rfl | hmem
        · exact le_of_not_gt hle
        · exact le_trans (hb y hmem) (le_of_not_gt hle)

lemma pairwise_sortDesc (f : α → κ) (l : List α) :
    (sortDesc f l).Pairwise (fun a b => f b ≤ f a) := by
  induction l with
  | nil => simp [sortDesc]
  | cons x xs ih => exact pairwise_insDesc f x _ ih

lemma filter_insDesc (f : α → κ) (q : κ) (x : α) (l : List α) :
    (insDesc f x l).filter (fun a => f a == q) =
      (if f x == q then [x] else []) ++ l.filter (fun a => f a == q) := by
  induction l with
  | nil => cases h : (f x == q) <;> simp [insDesc, List.filter, h]
  | cons b l ih =>
      unfold insDesc
      split
      · rename_i hgt
        cases hx : (f x == q)
        · rw [List.filter_cons, ih, hx]
          simp [List.filter_cons]
        · have hxq : f x = q := by simpa using hx
          have hbq : (f b == q) = false := by
            simp only [beq_eq_false_iff_ne, ne_eq]
            intro hc
            exact absurd (hxq ▸ hc ▸ hgt) (lt_irrefl _)
          rw [List.filter_cons, ih, hx, List.filter_cons, hbq]
          simp
      · rename_i hle
        rw [List.filter_cons]
        cases hx : (f x == q) <;> simp [hx]

/-- Stability of `sortDesc`: the elements whose key equals any fixed
value `q` appear in the output in exactly their input order. -/
lemma filter_sortDesc (f : α → κ) (q : κ) (l : List α) :
    (sortDesc f l).filter (fun a => f a == q) =
      l.filter (fun a => f a == q) := by
  induction l with
  | nil => rfl
  | cons x xs ih =>
      unfold sortDesc
      rw [filter_insDesc, ih, List.filter_cons]
      cases h : (f x == q) <;> simp [h]

end StableSort

/-! ## Career recommendation engine (`recommendation_engine.py`) -/

/-- One record of the fixed job catalog. -/
structure Job where
  job_title : String
  description : String
  required_skills : List String
  preferred_skills : List String
  industries : List String
  experience_levels : List String
  education_requirements : List String
  salary_range : String
  growth_prospects : String
  remote_friendly : Bool
deriving DecidableEq, Repr

/-- `CareerRecommendationEngine._load_job_database()`: the fixed 6-job
catalog, in its iteration order. -/
def job_database : List Job :=
  [ { job_title := "Data Scientist"
    , description := "Analyze complex data to help organizations make informed decisions using statistical methods and machine learning"
    , required_skills := ["Python", "Machine Learning", "Statistics", "SQL", "Data Visualization", "R"]
    , preferred_skills := ["Deep Learning", "Big Data", "Cloud Computing", "Tableau"]
    , industries := ["Technology", "Finance", "Healthcare", "Consulting"]
    , experience_levels := ["mid", "senior"]
    , education_requirements := ["bachelor", "master", "phd"]
    , salary_range := "$80,000 - $150,000"
    , growth_prospects := "High demand, 22% growth expected"
    , remote_friendly := true }
  , { job_title := "Software Engineer"
    , description := "Design, develop, and maintain software applications and systems"
    , required_skills := ["Programming", "Problem Solving", "System Design", "Git"]
    , preferred_skills := ["JavaScript", "Python", "Java", "React", "Node.js"]
    , industries := ["Technology", "Finance", "Healthcare", "Media"]
    , experience_levels := ["entry", "mid", "senior"]
    , education_requirements := ["bachelor", "master"]
    , salary_range := "$70,000 - $140,000"
    , growth_prospects := "Excellent, 13% growth expected"
    , remote_friendly := true }
  , { job_title := "Product Manager"
    , description := "Lead product development from conception to launch, working with cross-functional teams"
    , required_skills := ["Product Strategy", "Project Management", "Communication", "Analytics"]
    , preferred_skills := ["Agile", "User Research", "Data Analysis", "Leadership"]
    , industries := ["Technology", "Retail", "Finance", "Healthcare"]
    , experience_levels := ["mid", "senior"]
    , education_requirements := ["bachelor", "master"]
    , salary_range := "$90,000 - $160,000"
    , growth_prospects := "Strong demand, 15% growth expected"
    , remote_friendly := true }
  , { job_title := "UX Designer"
    , description := "Create user-centered designs for digital products and services"
    , required_skills := ["Design Thinking", "Prototyping", "User Research", "Wireframing"]
    , preferred_skills := ["Figma", "Adobe Creative Suite", "HTML/CSS", "Psychology"]
    , industries := ["Technology", "Media", "Retail", "Healthcare"]
    , experience_levels := ["entry", "mid", "senior"]
    , education_requirements := ["bachelor", "master"]
    , salary_range := "$65,000 - $120,000"
    , growth_prospects := "Growing field, 18% growth expected"
    , remote_friendly := true }
  , { job_title := "Cybersecurity Analyst"
    , description := "Protect organizations from cyber threats and security breaches"
    , required_skills := ["Network Security", "Risk Assessment", "Incident Response", "Security Tools"]
    , preferred_skills := ["Ethical Hacking", "Compliance", "Forensics", "Cloud Security"]
    , industries := ["Technology", "Finance", "Government", "Healthcare"]
    , experience_levels := ["entry", "mid", "senior"]
    , education_requirements := ["bachelor", "master"]
    , salary_range := "$75,000 - $130,000"
    , growth_prospects := "Very high demand, 28% growth expected"
    , remote_friendly := false }
  , { job_title := "Digital Marketing Manager"
    , description := "Develop and execute digital marketing strategies across multiple channels"
    , required_skills := ["Digital Marketing", "Analytics", "Content Strategy", "SEO/SEM"]
    , preferred_skills := ["Social Media", "Email Marketing", "Google Analytics", "A/B Testing"]
    , industries := ["Marketing", "Retail", "Technology", "Media"]
    , experience_levels := ["mid", "senior"]
    , education_requirements := ["bachelor", "master"]
    , salary_range := "$60,000 - $110,000"
    , growth_prospects := "Steady growth, 12% growth expected"
    , remote_friendly := true }
  ]

/-- Python `set(x.lower() for x in l)`, kept as a duplicate-free list. -/
def lowerSet (l : List String) : List String := (l.map strLower).dedup

/-- Size of the intersection of two such sets. -/
def interCount (a b : List String) : ℕ := (a.filter (fun s => b.contains s)).length

/-- `CareerRecommendationEngine.calculate_match_score(user_profile, job)`.
The TF-IDF cosine similarity computed by scikit-learn is abstracted as
the oracle `sim interest_text job_title`, applied only when the joined
interest text is non-empty, exactly as the source guards it. -/
def calculate_match_score (sim : String → String → ℚ) (p : UserProfile) (job : Job) : ℚ :=
  let user_skills := lowerSet p.skills
  let required_skills := lowerSet job.required_skills
  let preferred_skills := lowerSet job.preferred_skills
  let required_match : ℚ :=
    if required_skills.isEmpty then 0
    else (interCount user_skills required_skills : ℚ) / (required_skills.length : ℚ)
  let preferred_match : ℚ :=
    if preferred_skills.isEmpty then 0
    else (interCount user_skills preferred_skills : ℚ) / (preferred_skills.length : ℚ)
  let skills_score := (required_match * (7/10) + preferred_match * (3/10)) * (4/10)
  let score := skills_score
  let score := score + (if job.experience_levels.contains (strLower p.experience_level) then 1/5 else 0)
  let score := score + (if job.education_requirements.contains (strLower p.education) then 3/20 else 0)
  let user_industries := lowerSet p.preferred_industries
  let job_industries := lowerSet job.industries
  let score := score + (if 0 < interCount user_industries job_industries then 3/20 else 0)
  let user_text := String.intercalate " " p.interests
  let score := if user_text ≠ "" then score + sim user_text job.job_title * (1/10) else score
  min (score * 100) 100

/-- Python `round(x, 1)` on the percentage (modelled half-up on exact
rationals; every claim below is insensitive to the midpoint convention). -/
def round1 (q : ℚ) : ℚ := (⌊q * 10 + 1/2⌋ : ℚ) / 10

/-- The recommendation record built for one job inside
`get_recommendations`. -/
structure Recommendation where
  job_title : String
  match_percentage : ℚ
  description : String
  required_skills : List String
  salary_range : String
  growth_prospects : String
  remote_friendly : Bool
  industries : List String
deriving DecidableEq, Repr

/-- The per-job record assembled in the loop of `get_recommendations`. -/
def mkRecommendation (sim : String → String → ℚ) (p : UserProfile) (job : Job) : Recommendation :=
  { job_title := job.job_title
  , match_percentage := round1 (calculate_match_score sim p job)
  , description := job.description
  , required_skills := job.required_skills
  , salary_range := job.salary_range
  , growth_prospects := job.growth_prospects
  , remote_friendly := job.remote_friendly
  , industries := job.industries }

/-- `CareerRecommendationEngine.get_recommendations(user_profile, top_n)`:
score every catalog job in order, stable-sort descending by
`match_percentage`, truncate to `top_n`. -/
def get_recommendations (sim : String → String → ℚ) (p : UserProfile) (top_n : ℕ) : List Recommendation :=
  (sortDesc (fun r => r.match_percentage) (job_database.map (mkRecommendation sim p))).take top_n

/-! ## Skill gap analyzer (`skill_analyzer.py`) -/

/-- One record of the fixed skill database. -/
structure SkillInfo where
  category : String
  difficulty : ℤ
  market_demand : ℤ
  avg_learning_time_weeks : ℤ
  related_skills : List String
  job_roles : List String
deriving DecidableEq, Repr

/-- `SkillAnalyzer._load_skill_database()` as a keyed lookup
(`dict.get`): the eight fixed skill records. -/
def skill_database (name : String) : Option SkillInfo :=
  if name == "Python" then
    some { category := "Programming", difficulty := 6, market_demand := 9
         , avg_learning_time_weeks := 12
         , related_skills := ["Data Science", "Machine Learning", "Web Development"]
         , job_roles := ["Data Scientist", "Software Engineer", "Backend Developer"] }
  else if name == "Machine Learning" then
    some { category := "AI/Data Science", difficulty := 8, market_demand := 10
         , avg_learning_time_weeks := 16
         , related_skills := ["Python", "Statistics", "Data Analysis"]
         , job_roles := ["Data Scientist", "ML Engineer", "AI Researcher"] }
  else if name == "JavaScript" then
    some { category := "Programming", difficulty := 5, market_demand := 9
         , avg_learning_time_weeks := 10
         , related_skills := ["HTML", "CSS", "React", "Node.js"]
         , job_roles := ["Frontend Developer", "Full Stack Developer", "Web Developer"] }
  else if name == "Project Management" then
    some { category := "Management", difficulty := 6, market_demand := 8
         , avg_learning_time_weeks := 8
         , related_skills := ["Leadership", "Communication", "Agile"]
         , job_roles := ["Project Manager", "Product Manager", "Scrum Master"] }
  else if name == "Data Analysis" then
    some { category := "Analytics", difficulty := 6, market_demand := 9
         , avg_learning_time_weeks := 10
         , related_skills := ["SQL", "Excel", "Statistics", "Visualization"]
         , job_roles := ["Data Analyst", "Business Analyst", "Research Analyst"] }
  else if name == "Cloud Computing" then
    some { category := "Infrastructure", difficulty := 7, market_demand := 9
         , avg_learning_time_weeks := 14
         , related_skills := ["AWS", "Azure", "DevOps", "Networking"]
         , job_roles := ["Cloud Engineer", "DevOps Engineer", "Solutions Architect"] }
  else if name == "Communication" then
    some { category := "Soft Skills", difficulty := 4, market_demand := 10
         , avg_learning_time_weeks := 6
         , related_skills := ["Leadership", "Presentation", "Writing"]
         , job_roles := ["Manager", "Consultant", "Sales Representative"] }
  else if name == "Cybersecurity" then
    some { category := "Security", difficulty := 8, market_demand := 10
         , avg_learning_time_weeks := 18
         , related_skills := ["Networking", "Risk Assessment", "Compliance"]
         , job_roles := ["Security Analyst", "Security Engineer", "CISO"] }
  else none

/-- `SkillAnalyzer._load_learning_resources()` as a keyed lookup with
default `[]` (`dict.get(skill_name, [])`). -/
def learning_resources (name : String) : List String :=
  if name == "Python" then
    ["Python.org Official Tutorial", "Codecademy Python Course", "Real Python",
     "Python Crash Course Book", "Automate the Boring Stuff"]
  else if name == "Machine Learning" then
    ["Coursera ML Course (Andrew Ng)", "Fast.ai Practical Deep Learning", "Kaggle Learn",
     "Scikit-learn Documentation", "Hands-On Machine Learning Book"]
  else if name == "JavaScript" then
    ["MDN Web Docs", "freeCodeCamp", "JavaScript.info",
     "Eloquent JavaScript Book", "You Don't Know JS Series"]
  else if name == "Project Management" then
    ["PMI Certification Courses", "Coursera Project Management", "Agile Alliance Resources",
     "Scrum.org Training", "LinkedIn Learning PM Courses"]
  else if name == "Data Analysis" then
    ["Kaggle Learn Data Analysis", "Coursera Data Analysis Specialization",
     "Excel Training Resources", "Tableau Public Training", "Google Analytics Academy"]
  else if name == "Cloud Computing" then
    ["AWS Training and Certification", "Microsoft Azure Learning", "Google Cloud Training",
     "Cloud Guru Courses", "Linux Academy"]
  else if name == "Communication" then
    ["Toastmasters International", "Coursera Communication Courses", "Dale Carnegie Training",
     "TED Talks on Communication", "Harvard Business Review Articles"]
  else if name == "Cybersecurity" then
    ["Cybrary Free Courses", "SANS Training", "CompTIA Security+ Certification",
     "Offensive Security Training", "NIST Cybersecurity Framework"]
  else []

/-- `SkillAnalyzer._get_required_skills_for_role(role)`: the fixed
role → (skill, target level) map, unknown roles giving `{}`.  The pair
lists keep the dict-literal insertion order. -/
def role_requirements (role : String) : List (String × ℤ) :=
  if role == "Data Scientist" then
    [("Python", 8), ("Machine Learning", 8), ("Statistics", 7),
     ("Data Analysis", 8), ("Communication", 6)]
  else if role == "Software Engineer" then
    [("Programming", 8), ("JavaScript", 7), ("Python", 6),
     ("Problem Solving", 8), ("Communication", 6)]
  else if role == "Project Manager" then
    [("Project Management", 9), ("Communication", 9), ("Leadership", 8),
     ("Agile", 7), ("Risk Management", 6)]
  else if role == "Data Analyst" then
    [("Data Analysis", 8), ("SQL", 7), ("Excel", 7),
     ("Statistics", 6), ("Communication", 7)]
  else if role == "Cybersecurity Analyst" then
    [("Cybersecurity", 8), ("Network Security", 7), ("Risk Assessment", 7),
     ("Incident Response", 6), ("Compliance", 6)]
  else []

/-- The `role_mapping` dict literal of
`_get_target_roles_from_interests`, in insertion order. -/
def role_mapping : List (String × List String) :=
  [("technology", ["Software Engineer", "Data Scientist"]),
   ("data", ["Data Scientist", "Data Analyst"]),
   ("management", ["Project Manager", "Product Manager"]),
   ("design", ["UX Designer", "Product Designer"]),
   ("security", ["Cybersecurity Analyst", "Security Engineer"])]

/-- `SkillAnalyzer._get_target_roles_from_interests(user_profile)`.
CPython's `list(set(...))` order is unspecified, so the set is kept as
a `dedup`; every property proved below is independent of that order. -/
def target_roles_from_interests (p : UserProfile) : List String :=
  let interests := p.interests.map strLower
  let roles := interests.flatMap (fun interest =>
    role_mapping.flatMap (fun pr => if strHasSub pr.1 interest then pr.2 else []))
  if roles.isEmpty then ["Software Engineer", "Data Analyst"] else roles.dedup

/-- Python `dict.get(k, 0)` over an association list built by insertion
(later bindings overwrite earlier ones). -/
def dict_get (l : List (String × ℤ)) (k : String) : ℤ :=
  (l.foldl (fun acc pr => if pr.1 == k then some pr.2 else acc) none).getD 0

/-- The fields of one emitted skill-gap record. -/
structure SkillGapInfo where
  skill : String
  current_level : ℤ
  required_level : ℤ
  gap_size : ℤ
  importance : String
  importance_score : ℚ
  learning_resources : List String
  estimated_learning_time : ℤ
  market_demand : ℤ
  difficulty : ℤ
  category : String
deriving DecidableEq, Repr

/-- The importance formula of `_create_skill_gap_info`:
`(market_demand * 0.7 + (10 - difficulty) * 0.3) * gap_size`. -/
def importanceScore (market_demand difficulty gap_size : ℤ) : ℚ :=
  ((market_demand : ℚ) * (7/10) + ((10 : ℚ) - (difficulty : ℚ)) * (3/10)) * (gap_size : ℚ)

/-- The priority tiers of `_create_skill_gap_info`. -/
def priorityFor (s : ℚ) : String :=
  if s ≥ 7 then "High" else if s ≥ 4 then "Medium" else "Low"

/-- `SkillAnalyzer._create_skill_gap_info(skill_name, current_level,
required_level, user_profile)`.  The profile argument is accepted but
unused, as in the source. -/
def create_skill_gap_info (skill_name : String) (current_level required_level : ℤ)
    (p : UserProfile) : SkillGapInfo :=
  let info := skill_database skill_name
  let gap_size := required_level - current_level
  let market_demand := match info with | some i => i.market_demand | none => 5
  let difficulty := match info with | some i => i.difficulty | none => 5
  let score := importanceScore market_demand difficulty gap_size
  { skill := skill_name
  , current_level := current_level
  , required_level := required_level
  , gap_size := gap_size
  , importance := priorityFor score
  , importance_score := score
  , learning_resources := learning_resources skill_name
  , estimated_learning_time := match info with | some i => i.avg_learning_time_weeks | none => 8
  , market_demand := market_demand
  , difficulty := difficulty
  , category := match info with | some i => i.category | none => "General" }

/-- The inner loop of `analyze_skill_gaps` over one role's requirement
pairs, threading the `(skill_gaps, analyzed_skills)` state. -/
def gap_step (p : UserProfile) :
    List (String × ℤ) → List SkillGapInfo × List String → List SkillGapInfo × List String
  | [], st => st
  | (skill_name, required_level) :: rest, (gaps, analyzed) =>
      if analyzed.contains (strLower skill_name) then
        gap_step p rest (gaps, analyzed)
      else
        let current_level := dict_get (user_skill_levels p) (strLower skill_name)
        if current_level < required_level then
          gap_step p rest
            (gaps ++ [create_skill_gap_info skill_name current_level required_level p],
             analyzed ++ [strLower skill_name])
        else
          gap_step p rest (gaps, analyzed)

/-- The outer loop of `analyze_skill_gaps` over the target roles. -/
def gaps_loop (p : UserProfile) :
    List String → List SkillGapInfo × List String → List SkillGapInfo × List String
  | [], st => st
  | role :: roles, st => gaps_loop p roles (gap_step p (role_requirements role) st)

/-- The unsorted gap list accumulated by `analyze_skill_gaps` before
sorting and truncation.  `if not target_roles` covers both `None` and
`[]`, modelled by the empty list. -/
def gaps_raw (p : UserProfile) (target_roles : List String) : List SkillGapInfo :=
  let roles := if target_roles.isEmpty then target_roles_from_interests p else target_roles
  (gaps_loop p roles ([], [])).1

/-- The composite sort key `(importance_score, gap_size)` compared
lexicographically, as Python compares tuples. -/
def gapKey (g : SkillGapInfo) : ℚ ×ₗ ℚ := toLex (g.importance_score, (g.gap_size : ℚ))

/-- `SkillAnalyzer.analyze_skill_gaps(user_profile, target_roles)`:
emit gaps role by role, stable-sort descending by the composite key,
return the first 10. -/
def analyze_skill_gaps (p : UserProfile) (target_roles : List String) : List SkillGapInfo :=
  (sortDesc gapKey (gaps_raw p target_roles)).take 10

/-! ## Chatbot intent classification (`career_chatbot.py`) -/

/-- The `intent_patterns` dict literal of `_analyze_intent`, in
insertion order: the fixed intent precedence. -/
def intent_patterns : List (String × List String) :=
  [ ("career_change",
     ["career change", "switch career", "change job", "new career",
      "different field", "career transition", "pivot"])
  , ("salary_negotiation",
     ["salary", "negotiate", "pay raise", "compensation", "money",
      "wage", "income", "raise"])
  , ("skill_development",
     ["learn", "skill", "course", "training", "education",
      "improve", "develop", "certification"])
  , ("job_search",
     ["job search", "find job", "looking for", "apply", "hiring",
      "employment", "job hunting", "opportunities"])
  , ("interview_prep",
     ["interview", "preparation", "questions", "interview tips",
      "job interview", "behavioral questions"])
  , ("networking",
     ["network", "connections", "professional relationships",
      "meet people", "industry contacts", "linkedin"])
  , ("work_life_balance",
     ["work life balance", "stress", "burnout", "time management",
      "balance", "wellness", "mental health"]) ]

/-- Does any pattern of the list occur in the (already lowercased)
text? -/
def anyPatternIn (patterns : List String) (text : String) : Bool :=
  patterns.any (fun pat => strHasSub pat text)

/-- The nested early-return loops of `_analyze_intent` over a table of
`(intent, patterns)` pairs. -/
def firstIntent (table : List (String × List String)) (text : String) : String :=
  match table with
  | [] => "general"
  | (intent, patterns) :: rest =>
      if anyPatternIn patterns text then intent else firstIntent rest text

/-- `CareerChatbot._analyze_intent(message)`: lowercase the message and
return the first intent with a matching substring pattern, else
`"general"`. -/
def analyze_intent (message : String) : String :=
  firstIntent intent_patterns (strLower message)

/-! ## Personality analyzer (`personality_analyzer.py`) -/

/-- The four fixed score buckets (the keys of the `scores` dict). -/
inductive Color where
  | RED | YELLOW | GREEN | BLUE
deriving DecidableEq, Repr

/-- The per-bucket tallies. -/
structure Scores where
  red : ℕ
  yellow : ℕ
  green : ℕ
  blue : ℕ
deriving DecidableEq, Repr

/-- Read one bucket of the tally. -/
def Scores.score (s : Scores) : Color → ℕ
  | Color.RED => s.red
  | Color.YELLOW => s.yellow
  | Color.GREEN => s.green
  | Color.BLUE => s.blue

/-- The tally loop of `analyze_personality`: `A→RED`, `B→YELLOW`,
`C→GREEN`, `D→BLUE` after uppercasing, anything else ignored.  The
responses dict is represented by the list of its values (its keys are
never read). -/
def tallyScores : List String → Scores
  | [] => { red := 0, yellow := 0, green := 0, blue := 0 }
  | answer :: rest =>
      let s := tallyScores rest
      if (strUpper answer) == "A" then { s with red := s.red + 1 }
      else if (strUpper answer) == "B" then { s with yellow := s.yellow + 1 }
      else if (strUpper answer) == "C" then { s with green := s.green + 1 }
      else if (strUpper answer) == "D" then { s with blue := s.blue + 1 }
      else s

/-- The dict-iteration priority of `max(scores, key=scores.get)`:
position of the key in insertion order RED, YELLOW, GREEN, BLUE. -/
def colorIdx : Color → ℕ
  | Color.RED => 0
  | Color.YELLOW => 1
  | Color.GREEN => 2
  | Color.BLUE => 3

/-- `max(scores, key=scores.get)`: scan the keys in insertion order and
keep the first key whose count is strictly greater than the current
best's, so the earliest key wins ties. -/
def dominantColor (s : Scores) : Color :=
  [Color.RED, Color.YELLOW, Color.GREEN, Color.BLUE].foldl
    (fun best c => if s.score c > s.score best then c else best) Color.RED

/-- The `CAREER_MAP` table. -/
def career_map : Color → List String
  | Color.RED => ["Management", "Entrepreneurship", "Sales Leadership", "Project Management"]
  | Color.YELLOW => ["Marketing", "Public Relations", "Training", "Sales", "HR"]
  | Color.GREEN => ["Customer Service", "Healthcare", "Social Work", "Teaching"]
  | Color.BLUE => ["Data Analysis", "Engineering", "Research", "Quality Assurance"]

/-- `get_strengths(color)`. -/
def get_strengths : Color → List String
  | Color.RED => ["Leadership", "Decision-making", "Results-oriented"]
  | Color.YELLOW => ["Communication", "Creativity", "Optimism"]
  | Color.GREEN => ["Teamwork", "Patience", "Reliability"]
  | Color.BLUE => ["Analysis", "Precision", "Planning"]

/-- `get_weaknesses(color)`. -/
def get_weaknesses : Color → List String
  | Color.RED => ["Impatience", "Dominating"]
  | Color.YELLOW => ["Disorganized", "Unrealistic"]
  | Color.GREEN => ["Avoids conflict", "Resistant to change"]
  | Color.BLUE => ["Overthinking", "Critical"]

/-- The `PersonalityResult` response model. -/
structure PersonalityResult where
  dominant_color : Color
  scores : Scores
  career_suggestions : List String
  strengths : List String
  weaknesses : List String
deriving DecidableEq, Repr

/-- The `/analyze` endpoint `analyze_personality(responses)`, on the
list of answer values. -/
def analyze_personality (responses : List String) : PersonalityResult :=
  let scores := tallyScores responses
  let dominant := dominantColor scores
  { dominant_color := dominant
  , scores := scores
  , career_suggestions := career_map dominant
  , strengths := get_strengths dominant
  , weaknesses := get_weaknesses dominant }

/-! ## Theorems -/

lemma int_trunc_cast (b : ℤ) : int_trunc ((b : ℚ)) = b := int_trunc_intCast b

lemma int_trunc_cast_add_one (b : ℤ) (h : 0 ≤ b) : int_trunc ((b : ℚ) + 1) = b + 1 := by
  have h0 : (0 : ℚ) ≤ (b : ℚ) + 1 := by
    have : (0 : ℚ) ≤ (b : ℚ) := by exact_mod_cast h
    linarith
  rw [int_trunc_intCast_add b 1 h0]
  norm_num

lemma int_trunc_cast_add_half (b : ℤ) (h : 0 ≤ b) : int_trunc ((b : ℚ) + 1/2) = b := by
  have h0 : (0 : ℚ) ≤ (b : ℚ) + 1/2 := by
    have : (0 : ℚ) ≤ (b : ℚ) := by exact_mod_cast h
    linarith
  rw [int_trunc_intCast_add b (1/2) h0]
  norm_num

lemma int_trunc_cast_add_three_halves (b : ℤ) (h : 0 ≤ b) :
    int_trunc ((b : ℚ) + 3/2) = b + 1 := by
  have h0 : (0 : ℚ) ≤ (b : ℚ) + 3/2 := by
    have : (0 : ℚ) ≤ (b : ℚ) := by exact_mod_cast h
    linarith
  rw [int_trunc_intCast_add b (3/2) h0]
  norm_num

/-- C3: for every profile, the estimated current skill level equals the
experience-tier base (entry=3, mid=5, senior=7, executive=8, default 3),
plus 1 if the lowercased education contains "phd", plus 0.5 if it
contains "master", truncated to an integer and capped at 10; and the
result never exceeds 10.  (The source adds the two education bonuses
through an if/elif, but because the base is an integer the 0.5 is lost
to truncation whenever the 1 is also added, so the two readings agree
on every input.) -/
theorem C3_estimate_level (s : String) (p : UserProfile) :
    estimate_user_level s p = spec_estimate_level p ∧ estimate_user_level s p ≤ 10 := by
  have hbpos : 0 ≤ base_levels p.experience_level :=
    le_trans (by norm_num) (base_levels_bounds p.experience_level).1
  constructor
  · simp only [estimate_user_level, spec_estimate_level]
    cases hphd : strHasSub "phd" (strLower p.education) <;>
      cases hm : strHasSub "master" (strLower p.education)
    · simp [int_trunc_cast]
    · simp [int_trunc_cast, int_trunc_cast_add_half _ hbpos]
    · simp [int_trunc_cast_add_one _ hbpos]
    · simp [int_trunc_cast_add_one _ hbpos]
      have h32 : (base_levels p.experience_level : ℚ) + 1 + 2⁻¹ =
          (base_levels p.experience_level : ℚ) + 3/2 := by ring
      rw [h32, int_trunc_cast_add_three_halves _ hbpos]
  · simp only [estimate_user_level]
    exact min_le_right _ _

/-- C9: `_estimate_user_level` ignores its skill-name argument, so any
two skill names receive the same estimate, and inside one
`analyze_skill_gaps` call every claimed skill of the profile is mapped
to that same estimated level. -/
theorem C9_level_skill_independent (s1 s2 : String) (p : UserProfile) :
    estimate_user_level s1 p = estimate_user_level s2 p ∧
    (user_skill_levels p).all (fun pr => pr.2 == estimate_user_level s1 p) = true := by
  refine ⟨rfl, ?_⟩
  simp only [user_skill_levels, List.all_eq_true, List.mem_map]
  rintro pr ⟨a, _, rfl⟩
  exact beq_iff_eq.mpr rfl

/-- C2: for a profile whose skills, interests and preferred industries
are all empty, `calculate_match_score` is exactly the experience bonus
(20 when the lowercased experience level is among the job's allowed
levels, else 0) plus the education bonus (15 when the lowercased
education is among the job's education requirements, else 0); the
skill, industry and interest-similarity terms contribute 0, and the cap
at 100 never bites. -/
theorem C2_empty_profile_score (sim : String → String → ℚ) (p : UserProfile) (job : Job)
    (hs : p.skills = []) (hi : p.interests = []) (hind : p.preferred_industries = [])
    (hjob : job ∈ job_database) :
    calculate_match_score sim p job =
      (if job.experience_levels.contains (strLower p.experience_level) then 20 else 0) +
      (if job.education_requirements.contains (strLower p.education) then 15 else 0) := by
  clear hjob
  have hit : String.intercalate " " ([] : List String) = "" := rfl
  simp only [calculate_match_score, hs, hi, hind]
  simp [lowerSet, interCount, hit]
  split_ifs <;> norm_num [min_def]

/-- Witness for C2 at a concrete profile (mid-level, bachelor, all
lists empty) against the Data Scientist catalog record. -/
theorem C2_empty_profile_score_witness :
    calculate_match_score (fun _ _ => 0)
      { skills := [], experience_level := "mid", education := "bachelor"
      , preferred_industries := [], interests := [] }
      { job_title := "Data Scientist"
      , description := "Analyze complex data to help organizations make informed decisions using statistical methods and machine learning"
      , required_skills := ["Python", "Machine Learning", "Statistics", "SQL", "Data Visualization", "R"]
      , preferred_skills := ["Deep Learning", "Big Data", "Cloud Computing", "Tableau"]
      , industries := ["Technology", "Finance", "Healthcare", "Consulting"]
      , experience_levels := ["mid", "senior"]
      , education_requirements := ["bachelor", "master", "phd"]
      , salary_range := "$80,000 - $150,000"
      , growth_prospects := "High demand, 22% growth expected"
      , remote_friendly := true } =
      (if (["mid", "senior"] : List String).contains (strLower "mid") then 20 else 0) +
      (if (["bachelor", "master", "phd"] : List String).contains (strLower "bachelor") then 15 else 0) :=
  C2_empty_profile_score (fun _ _ => 0) _ _ rfl rfl rfl (by unfold job_database; exact List.mem_cons_self _ _)

/-- C1: for every similarity oracle, profile and `N`,
`get_recommendations` returns at most `N` records, every record is one
of the per-catalog-job records (in particular it corresponds to a job
of the fixed 6-job catalog), the returned list is sorted descending by
`match_percentage`, and the sort is stable: for any fixed percentage
value the records carrying it appear in exactly their catalog
iteration order. -/
theorem C1_recommendations_shape (sim : String → String → ℚ) (p : UserProfile) (N : ℕ) :
    (get_recommendations sim p N).length ≤ N ∧
    (∀ r ∈ get_recommendations sim p N, r ∈ job_database.map (mkRecommendation sim p)) ∧
    (get_recommendations sim p N).Pairwise
      (fun a b => b.match_percentage ≤ a.match_percentage) ∧
    (∀ q : ℚ,
      (sortDesc (fun r => r.match_percentage)
          (job_database.map (mkRecommendation sim p))).filter
        (fun r => r.match_percentage == q) =
      (job_database.map (mkRecommendation sim p)).filter
        (fun r => r.match_percentage == q)) := by
  refine ⟨?_, ?_, ?_, ?_⟩
  · simp only [get_recommendations, List.length_take]
    exact min_le_left _ _
  · intro r hr
    have h1 : r ∈ sortDesc (fun r : Recommendation => r.match_percentage)
        (job_database.map (mkRecommendation sim p)) :=
      List.mem_of_mem_take hr
    exact (mem_sortDesc _ _ _).mp h1
  · exact List.Pairwise.sublist (List.take_sublist _ _)
      (pairwise_sortDesc (fun r : Recommendation => r.match_percentage) _)
  · intro q
    exact filter_sortDesc (fun r : Recommendation => r.match_percentage) q _

/-- C6: the importance score
`(market_demand * 0.7 + (10 - difficulty) * 0.3) * gap_size` is
monotone non-decreasing in the market demand for a fixed positive gap,
and monotone non-decreasing in the gap size when market demand and
difficulty lie in `[1, 10]`; `_create_skill_gap_info` tiers exactly by
that score, High when `≥ 7`, Medium when `≥ 4` (and `< 7`), Low
otherwise. -/
theorem C6_importance_monotone :
    (∀ md md' d g : ℤ, 0 < g → md ≤ md' →
        importanceScore md d g ≤ importanceScore md' d g) ∧
    (∀ md d g g' : ℤ, 1 ≤ md → md ≤ 10 → 1 ≤ d → d ≤ 10 → g ≤ g' →
        importanceScore md d g ≤ importanceScore md d g') ∧
    (∀ (name : String) (cur req : ℤ) (p : UserProfile),
        (create_skill_gap_info name cur req p).importance =
          priorityFor ((create_skill_gap_info name cur req p).importance_score)) ∧
    (∀ s : ℚ, (7 ≤ s → priorityFor s = "High") ∧
        (4 ≤ s → s < 7 → priorityFor s = "Medium") ∧
        (s < 4 → priorityFor s = "Low")) := by
  refine ⟨?_, ?_, ?_, ?_⟩
  · intro md md' d g hg hle
    have h1 : (md : ℚ) ≤ (md' : ℚ) := by exact_mod_cast hle
    have h2 : (0 : ℚ) < (g : ℚ) := by exact_mod_cast hg
    unfold importanceScore
    nlinarith
  · intro md d g g' hmd1 hmd10 hd1 hd10 hg
    have h1 : (1 : ℚ) ≤ (md : ℚ) := by exact_mod_cast hmd1
    have h2 : (d : ℚ) ≤ 10 := by exact_mod_cast hd10
    have h3 : (g : ℚ) ≤ (g' : ℚ) := by exact_mod_cast hg
    unfold importanceScore
    nlinarith
  · intro name cur req p
    rfl
  · intro s
    refine ⟨fun h7 => ?_, fun h4 h7 => ?_, fun h4 => ?_⟩ <;>
      simp only [priorityFor] <;> split_ifs <;> first | rfl | linarith

/-- Witness for C6 at concrete numbers: market demand 5 → 6 with gap 2,
gap 2 → 3 at demand 5 and difficulty 5, the Python gap record, and the
three tiers at scores 8, 5 and 2. -/
theorem C6_importance_monotone_witness :
    importanceScore 5 5 2 ≤ importanceScore 6 5 2 ∧
    importanceScore 5 5 2 ≤ importanceScore 5 5 3 ∧
    (create_skill_gap_info "Python" 3 8
        { skills := [], experience_level := "entry", education := ""
        , preferred_industries := [], interests := [] }).importance =
      priorityFor ((create_skill_gap_info "Python" 3 8
        { skills := [], experience_level := "entry", education := ""
        , preferred_industries := [], interests := [] }).importance_score) ∧
    priorityFor 8 = "High" ∧ priorityFor 5 = "Medium" ∧ priorityFor 2 = "Low" :=
  ⟨C6_importance_monotone.1 5 6 5 2 (by norm_num) (by norm_num),
   C6_importance_monotone.2.1 5 5 2 3 (by norm_num) (by norm_num) (by norm_num)
     (by norm_num) (by norm_num),
   C6_importance_monotone.2.2.1 "Python" 3 8 _,
   (C6_importance_monotone.2.2.2 8).1 (by norm_num),
   (C6_importance_monotone.2.2.2 5).2.1 (by norm_num) (by norm_num),
   (C6_importance_monotone.2.2.2 2).2.2 (by norm_num)⟩

lemma firstIntent_spec (table : List (String × List String)) (t : String) :
    (firstIntent table t = "general" ∧
      ∀ pr ∈ table, anyPatternIn pr.2 t = false) ∨
    (∃ n : ℕ, ∃ hn : n < table.length,
      firstIntent table t = (table.get ⟨n, hn⟩).1 ∧
      anyPatternIn (table.get ⟨n, hn⟩).2 t = true ∧
      ∀ pr ∈ table.take n, anyPatternIn pr.2 t = false) := by
  induction table with
  | nil => exact Or.inl ⟨rfl, by simp⟩
  | cons hd rest ih =>
      obtain ⟨name, patterns⟩ := hd
      cases h : anyPatternIn patterns t
      · rcases ih with ⟨he, hall⟩ | ⟨n, hn, h1, h2, h3⟩
        · refine Or.inl ⟨?_, ?_⟩
          · simp [firstIntent, h, he]
          · intro pr hpr
            rcases List.mem_cons.mp hpr with rfl | hmem
            · exact h
            · exact hall pr hmem
        · refine Or.inr ⟨n + 1, Nat.succ_lt_succ hn, ?_, ?_, ?_⟩
          · simpa [firstIntent, h] using h1
          · simpa using h2
          · intro pr hpr
            rw [List.take_succ_cons] at hpr
            rcases List.mem_cons.mp hpr with rfl | hmem
            · exact h
            · exact h3 pr hmem
      · refine Or.inr ⟨0, by simp, ?_, ?_, ?_⟩
        · simp [firstIntent, h]
        · simpa using h
        · simp

/-- C7: `_analyze_intent` is a pure function of the lowercased message:
either no pattern of any intent occurs in it and the result is
`"general"`, or the result is the `n`-th intent of the fixed table (in
its insertion order career_change, salary_negotiation,
skill_development, job_search, interview_prep, networking,
work_life_balance), some pattern of that intent occurs in the
lowercased text, and no pattern of any earlier intent does. -/
theorem C7_intent_classification (msg : String) :
    analyze_intent msg = firstIntent intent_patterns (strLower msg) ∧
    intent_patterns.map Prod.fst =
      ["career_change", "salary_negotiation", "skill_development", "job_search",
       "interview_prep", "networking", "work_life_balance"] ∧
    ((analyze_intent msg = "general" ∧
        ∀ pr ∈ intent_patterns, anyPatternIn pr.2 (strLower msg) = false) ∨
      (∃ n : ℕ, ∃ hn : n < intent_patterns.length,
        analyze_intent msg = (intent_patterns.get ⟨n, hn⟩).1 ∧
        anyPatternIn (intent_patterns.get ⟨n, hn⟩).2 (strLower msg) = true ∧
        ∀ pr ∈ intent_patterns.take n, anyPatternIn pr.2 (strLower msg) = false)) :=
  ⟨rfl, rfl, firstIntent_spec intent_patterns (strLower msg)⟩

/-- C8: tallying is case-insensitive with A→RED, B→YELLOW, C→GREEN,
D→BLUE and other letters ignored; on the concrete responses
`{0:"a", 1:"A", 2:"b"}` the counts are RED 2, YELLOW 1, GREEN 0,
BLUE 0 and the dominant category is RED; and in general the dominant
category carries a maximal count, strictly exceeding the count of every
category that precedes it in the fixed priority order
RED > YELLOW > GREEN > BLUE. -/
theorem C8_personality_tally :
    (tallyScores ["a", "A", "b"] = { red := 2, yellow := 1, green := 0, blue := 0 } ∧
      (analyze_personality ["a", "A", "b"]).dominant_color = Color.RED) ∧
    ∀ s : Scores,
      (∀ c : Color, s.score c ≤ s.score (dominantColor s)) ∧
      (∀ c : Color, colorIdx c < colorIdx (dominantColor s) →
        s.score c < s.score (dominantColor s)) := by
  refine ⟨⟨by decide, by decide⟩, fun s => ⟨fun c => ?_, fun c h => ?_⟩⟩ <;>
  · simp only [dominantColor, List.foldl] at *
    split_ifs at * <;> cases c <;>
      simp only [Scores.score, colorIdx] at * <;> omega

/-- Witness for C8: the general tie-break clause applied at counts
RED 1, YELLOW 2: RED precedes the dominant YELLOW in priority, so its
count is strictly smaller. -/
theorem C8_personality_tally_witness :
    Scores.score { red := 1, yellow := 2, green := 0, blue := 0 } Color.RED <
      Scores.score { red := 1, yellow := 2, green := 0, blue := 0 }
        (dominantColor { red := 1, yellow := 2, green := 0, blue := 0 }) :=
  (C8_personality_tally.2 { red := 1, yellow := 2, green := 0, blue := 0 }).2
    Color.RED (by decide)

lemma tally_invalid (rs : List String)
    (h : ∀ a ∈ rs, strUpper a ≠ "A" ∧ strUpper a ≠ "B" ∧
        strUpper a ≠ "C" ∧ strUpper a ≠ "D") :
    tallyScores rs = { red := 0, yellow := 0, green := 0, blue := 0 } := by
  induction rs with
  | nil => rfl
  | cons a rest ih =>
      have ha := h a (List.mem_cons_self a rest)
      have hr := ih (fun x hx => h x (List.mem_cons_of_mem a hx))
      simp [tallyScores, hr, ha.1, ha.2.1, ha.2.2.1, ha.2.2.2]

/-- C10: when the responses are empty or every answer uppercases to
something other than A, B, C or D, all four counts are 0 and
`analyze_personality` returns RED as dominant together with RED's
career suggestions, strengths and weaknesses (the embedding is total,
so no error is possible). -/
theorem C10_invalid_answers_red (rs : List String)
    (h : ∀ a ∈ rs, strUpper a ≠ "A" ∧ strUpper a ≠ "B" ∧
        strUpper a ≠ "C" ∧ strUpper a ≠ "D") :
    analyze_personality rs =
      { dominant_color := Color.RED
      , scores := { red := 0, yellow := 0, green := 0, blue := 0 }
      , career_suggestions := ["Management", "Entrepreneurship", "Sales Leadership", "Project Management"]
      , strengths := ["Leadership", "Decision-making", "Results-oriented"]
      , weaknesses := ["Impatience", "Dominating"] } := by
  unfold analyze_personality
  rw [tally_invalid rs h]
  rfl

/-- Witness for C10 on the concrete all-invalid responses `["x", "e"]`. -/
theorem C10_invalid_answers_red_witness :
    analyze_personality ["x", "e"] =
      { dominant_color := Color.RED
      , scores := { red := 0, yellow := 0, green := 0, blue := 0 }
      , career_suggestions := ["Management", "Entrepreneurship", "Sales Leadership", "Project Management"]
      , strengths := ["Leadership", "Decision-making", "Results-oriented"]
      , weaknesses := ["Impatience", "Dominating"] } :=
  C10_invalid_answers_red ["x", "e"] (by decide)

lemma create_skill_gap_info_current (n : String) (cur req : ℤ) (p : UserProfile) :
    (create_skill_gap_info n cur req p).current_level = cur := rfl

lemma create_skill_gap_info_required (n : String) (cur req : ℤ) (p : UserProfile) :
    (create_skill_gap_info n cur req p).required_level = req := rfl

lemma create_skill_gap_info_gap (n : String) (cur req : ℤ) (p : UserProfile) :
    (create_skill_gap_info n cur req p).gap_size = req - cur := rfl

lemma create_skill_gap_info_skill (n : String) (cur req : ℤ) (p : UserProfile) :
    (create_skill_gap_info n cur req p).skill = n := rfl

lemma gap_step_inv (p : UserProfile) (l : List (String × ℤ))
    (gaps : List SkillGapInfo) (an : List String)
    (h : ∀ g ∈ gaps, g.current_level < g.required_level ∧
        g.gap_size = g.required_level - g.current_level) :
    ∀ g ∈ (gap_step p l (gaps, an)).1,
      g.current_level < g.required_level ∧
      g.gap_size = g.required_level - g.current_level := by
  induction l generalizing gaps an with
  | nil => exact h
  | cons pr rest ih =>
      obtain ⟨n, r⟩ := pr
      simp only [gap_step]
      split
      · exact ih gaps an h
      · split
        · rename_i hlt
          apply ih
          intro g hg
          rcases List.mem_append.mp hg with hg | hg
          · exact h g hg
          · rcases List.mem_singleton.mp hg with rfl
            rw [create_skill_gap_info_current, create_skill_gap_info_required,
              create_skill_gap_info_gap]
            exact ⟨hlt, rfl⟩
        · exact ih gaps an h

lemma gaps_loop_inv (p : UserProfile) (roles : List String)
    (gaps : List SkillGapInfo) (an : List String)
    (h : ∀ g ∈ gaps, g.current_level < g.required_level ∧
        g.gap_size = g.required_level - g.current_level) :
    ∀ g ∈ (gaps_loop p roles (gaps, an)).1,
      g.current_level < g.required_level ∧
      g.gap_size = g.required_level - g.current_level := by
  induction roles generalizing gaps an with
  | nil => exact h
  | cons role roles ih =>
      simp only [gaps_loop]
      have h' := gap_step_inv p (role_requirements role) gaps an h
      rcases hst : gap_step p (role_requirements role) (gaps, an) with ⟨gaps', an'⟩
      rw [hst] at h'
      exact ih gaps' an' h'

/-- C4: for every profile and every target-role list,
`analyze_skill_gaps` returns at most 10 records, and each returned
record has `current_level` strictly below `required_level` with
`gap_size ≥ 1` (no gap is emitted for a skill whose estimated level
meets or exceeds the role target). -/
theorem C4_gap_list_shape (p : UserProfile) (roles : List String) :
    (analyze_skill_gaps p roles).length ≤ 10 ∧
    (analyze_skill_gaps p roles).all
      (fun g => decide (g.current_level < g.required_level) &&
        decide (1 ≤ g.gap_size)) = true := by
  constructor
  · simp only [analyze_skill_gaps, List.length_take]
    exact min_le_left _ _
  · rw [List.all_eq_true]
    intro g hg
    have hmem : g ∈ gaps_raw p roles := by
      have h1 : g ∈ sortDesc gapKey (gaps_raw p roles) := List.mem_of_mem_take hg
      exact (mem_sortDesc _ _ _).mp h1
    have hinv := gaps_loop_inv p
      (if roles.isEmpty then target_roles_from_interests p else roles) [] []
      (by intro g hg; simp at hg)
    have hG := hinv g (by simpa [gaps_raw] using hmem)
    simp only [Bool.and_eq_true, decide_eq_true_eq]
    exact ⟨hG.1, by omega⟩

/-- C5 counterexample: the catalog says Software Engineer (the first
target role) requires Python at level 6, yet for a senior profile
claiming Python (estimated level 7) the analyzer emits a Python gap
with required level 8 — taken from the *second* role, Data Scientist —
and no record with Software Engineer's level 6.  The first role's met
requirement neither emits a gap nor marks the skill as analyzed, so
later roles are not ignored, contradicting the claim that the first
role requiring a skill always wins. -/
theorem C5_counterexample :
    role_requirements "Software Engineer" =
      [("Programming", 8), ("JavaScript", 7), ("Python", 6),
       ("Problem Solving", 8), ("Communication", 6)] ∧
    (analyze_skill_gaps
        { skills := ["Python"], experience_level := "senior", education := ""
        , preferred_industries := [], interests := [] }
        ["Software Engineer", "Data Scientist"]).any
      (fun g => g.skill == "Python" && g.required_level == 8) = true ∧
    (analyze_skill_gaps
        { skills := ["Python"], experience_level := "senior", education := ""
        , preferred_industries := [], interests := [] }
        ["Software Engineer", "Data Scientist"]).any
      (fun g => g.skill == "Python" && g.required_level == 6) = false := by
  have hlen : (sortDesc gapKey (gaps_raw
      { skills := ["Python"], experience_level := "senior", education := ""
      , preferred_industries := [], interests := [] }
      ["Software Engineer", "Data Scientist"])).length ≤ 10 := by
    rw [length_sortDesc]
    decide
  have htake : analyze_skill_gaps
      { skills := ["Python"], experience_level := "senior", education := ""
      , preferred_industries := [], interests := [] }
      ["Software Engineer", "Data Scientist"] =
      sortDesc gapKey (gaps_raw
        { skills := ["Python"], experience_level := "senior", education := ""
        , preferred_industries := [], interests := [] }
        ["Software Engineer", "Data Scientist"]) := by
    unfold analyze_skill_gaps
    exact List.take_of_length_le hlen
  refine ⟨rfl, ?_, ?_⟩
  · rw [htake, List.any_eq_true]
    have h1 : (gaps_raw
        { skills := ["Python"], experience_level := "senior", education := ""
        , preferred_industries := [], interests := [] }
        ["Software Engineer", "Data Scientist"]).any
        (fun g => g.skill == "Python" && g.required_level == 8) = true := by decide
    rcases List.any_eq_true.mp h1 with ⟨g, hg, hpred⟩
    exact ⟨g, (mem_sortDesc _ _ _).mpr hg, hpred⟩
  · rw [htake, List.any_eq_false]
    have h2 : (gaps_raw
        { skills := ["Python"], experience_level := "senior", education := ""
        , preferred_industries := [], interests := [] }
        ["Software Engineer", "Data Scientist"]).any
        (fun g => g.skill == "Python" && g.required_level == 6) = false := by decide
    intro g hg
    exact List.any_eq_false.mp h2 g ((mem_sortDesc _ _ _).mp hg)

lemma contains_append_singleton (an : List String) (x s : String) :
    (an ++ [x]).contains s = (an.contains s || s == x) := by
  induction an with
  | nil => simp [List.contains_cons, Bool.beq_eq_decide_eq]
  | cons a an ih => simp [List.contains_cons, ih, Bool.or_assoc, Bool.beq_eq_decide_eq]

lemma gap_step_append (p : UserProfile) (l1 l2 : List (String × ℤ))
    (st : List SkillGapInfo × List String) :
    gap_step p (l1 ++ l2) st = gap_step p l2 (gap_step p l1 st) := by
  induction l1 generalizing st with
  | nil => rfl
  | cons pr rest ih =>
      obtain ⟨n, r⟩ := pr
      obtain ⟨gaps, an⟩ := st
      simp only [List.cons_append, gap_step]
      split
      · exact ih _
      · split
        · exact ih _
        · exact ih _

lemma gaps_loop_eq_flat (p : UserProfile) (roles : List String)
    (st : List SkillGapInfo × List String) :
    gaps_loop p roles st = gap_step p (roles.flatMap role_requirements) st := by
  induction roles generalizing st with
  | nil => rfl
  | cons role roles ih =>
      simp only [gaps_loop, List.flatMap_cons, gap_step_append]
      exact ih _

lemma gap_step_filter (p : UserProfile) (s : String) (l : List (String × ℤ))
    (gaps : List SkillGapInfo) (an : List String)
    (hinv : an = gaps.map (fun g => strLower g.skill)) :
    ((gap_step p l (gaps, an)).1).filter (fun g => strLower g.skill == s) =
      gaps.filter (fun g => strLower g.skill == s) ++
      (if an.contains s then []
       else
         match l.find? (fun pr => strLower pr.1 == s &&
             decide (dict_get (user_skill_levels p) (strLower pr.1) < pr.2)) with
         | some pr => [create_skill_gap_info pr.1
             (dict_get (user_skill_levels p) (strLower pr.1)) pr.2 p]
         | none => []) := by
  induction l generalizing gaps an with
  | nil =>
      simp only [gap_step, List.find?]
      split <;> simp
  | cons pr rest ih =>
      obtain ⟨n, r⟩ := pr
      simp only [gap_step]
      split
      · rename_i hc
        rw [ih gaps an hinv]
        congr 1
        cases hsc : an.contains s
        · have hne : (strLower n == s) = false := by
            cases hbeq : (strLower n == s)
            · rfl
            · exfalso
              rw [eq_of_beq hbeq, hsc] at hc
              exact Bool.false_ne_true hc
          rw [List.find?_cons]
          simp [hne]
        · simp
      · rename_i hc
        have hcf : an.contains (strLower n) = false := by
          cases h : an.contains (strLower n)
          · rfl
          · exact absurd h hc
        split
        · rename_i hlt
          have hinv' : an ++ [strLower n] =
              (gaps ++ [create_skill_gap_info n
                (dict_get (user_skill_levels p) (strLower n)) r p]).map
                (fun g => strLower g.skill) := by
            rw [List.map_append, hinv]
            rfl
          rw [ih _ _ hinv', List.filter_append]
          cases hbeq : (strLower n == s)
          · have hgi : (List.filter (fun g => strLower g.skill == s)
                [create_skill_gap_info n
                  (dict_get (user_skill_levels p) (strLower n)) r p]) = [] := by
              simp only [List.filter, create_skill_gap_info_skill, hbeq]
            rw [hgi, List.append_nil]
            congr 1
            have hsn : (s == strLower n) = false := by
              cases h : (s == strLower n)
              · rfl
              · exfalso
                have hss : s = strLower n := eq_of_beq h
                rw [hss] at hbeq
                simp at hbeq
            rw [contains_append_singleton, hsn, Bool.or_false]
            cases hsc : an.contains s
            · rw [List.find?_cons]
              simp [hbeq]
            · simp
          · have hs : strLower n = s := eq_of_beq hbeq
            have hgi : (List.filter (fun g => strLower g.skill == s)
                [create_skill_gap_info n
                  (dict_get (user_skill_levels p) (strLower n)) r p]) =
                [create_skill_gap_info n
                  (dict_get (user_skill_levels p) (strLower n)) r p] := by
              simp only [List.filter, create_skill_gap_info_skill, hbeq]
            rw [hgi]
            have hconl : (an ++ [strLower n]).contains s = true := by
              rw [contains_append_singleton, hs]
              simp
            rw [hconl]
            have hans : an.contains s = false := by
              rw [← hs]
              exact hcf
            rw [hans]
            rw [List.find?_cons]
            have hd : decide (dict_get (user_skill_levels p) (strLower n) < r) = true :=
              decide_eq_true hlt
            rw [hs] at hd
            simp [hbeq, hd, hs]
        · rename_i hlt
          rw [ih gaps an hinv]
          congr 1
          cases hsc : an.contains s
          · rw [List.find?_cons]
            cases hbeq : (strLower n == s)
            · simp [hbeq]
            · have hs : strLower n = s := eq_of_beq hbeq
              simp [hbeq, hlt]
          · simp

/-- C5, amended: per lowercased skill name, `analyze_skill_gaps` emits
at most one gap record, and the record present (before sorting and
truncation) is exactly the one from the *first* requirement pair, in
role-traversal order, whose target level strictly exceeds the user's
current level for that skill; requirement pairs whose target is met do
not emit and do not block later roles.  (The original claim said the
first role *requiring* the skill always wins; the counterexample shows
a met requirement is skipped without marking the skill analyzed.) -/
theorem C5_amended_dedup (p : UserProfile) (roles : List String) (s : String) :
    (gaps_raw p roles).filter (fun g => strLower g.skill == s) =
      (match ((if roles.isEmpty then target_roles_from_interests p
            else roles).flatMap role_requirements).find?
          (fun pr => strLower pr.1 == s &&
            decide (dict_get (user_skill_levels p) (strLower pr.1) < pr.2)) with
       | some pr => [create_skill_gap_info pr.1
           (dict_get (user_skill_levels p) (strLower pr.1)) pr.2 p]
       | none => []) := by
  have h := gap_step_filter p s
    ((if roles.isEmpty then target_roles_from_interests p
      else roles).flatMap role_requirements) [] [] rfl
  simp only [gaps_raw, gaps_loop_eq_flat]
  simpa using h

end CareerAI
